import Mathlib

/-!
# Verification of the plant monitoring integration

Shallow embedding of `custom_components/plant` (files `watering.py`,
`__init__.py`, `sensor.py`) and proofs about it.

Conventions:
* Python `float` values are modelled as exact rationals (`ℚ`) wherever the
  source only performs field/order operations, and as real numbers (`ℝ`)
  where transcendental functions (`math.cos`) appear.
* `None` / optional values become `Option`.
* Code that can raise is modelled in `Except Unit`.
* Timestamps are rationals, measured in hours (for the notification gates)
  or days (for the interval calculators), as noted at each definition.
-/

namespace Plant

/-! ## watering.py : the modifier library -/

/-- `MIN_INTERVAL_DAYS` from watering.py. -/
def MIN_INTERVAL_DAYS : ℚ := 0.5

/-- `MAX_INTERVAL_DAYS` from watering.py. -/
def MAX_INTERVAL_DAYS : ℚ := 365

/-- `_temp_modifier(temp_c)` from watering.py:
`None ↦ 1.0`; otherwise `max(0.5, min(2.0, 1.0 - (temp_c - 20.0) * 0.02))`. -/
def _temp_modifier : Option ℚ → ℚ
  | none => 1
  | some t => max 0.5 (min 2.0 (1 - (t - 20) * 0.02))

/-- `_humidity_modifier(hum_pct)` from watering.py:
`None ↦ 1.0`; otherwise `max(0.5, min(2.0, 1.0 + ((hum - 50)/10) * 0.05))`. -/
def _humidity_modifier : Option ℚ → ℚ
  | none => 1
  | some h => max 0.5 (min 2.0 (1 + ((h - 50) / 10) * 0.05))

/-- `_dli_modifier(dli)` from watering.py:
`None ↦ 1.0`; `dli < 5 ↦ 1 + (5 - dli)*0.1`, else `1 - (dli - 5)*0.05`,
clamped to `[0.25, 1.5]`. -/
def _dli_modifier : Option ℚ → ℚ
  | none => 1
  | some d =>
      max 0.25 (min 1.5 (if d < 5 then 1 + (5 - d) * 0.1 else 1 - (d - 5) * 0.05))

/-- `_outdoor_modifier(is_outside, weather_dryness)` from watering.py. -/
def _outdoor_modifier : Bool → Option ℚ → ℚ
  | false, _ => 1
  | true, none => 0.8
  | true, some w => max 0.4 (min 1.5 (1.2 - (w - 0.5)))

/-- `_seasonal_modifier()` from watering.py, with the day of the year
(`datetime.utcnow().timetuple().tm_yday`) made an explicit argument:
`1.0 + cos(2*pi*(day_of_year - 172)/365.25) * 0.2`. -/
noncomputable def _seasonal_modifier (day_of_year : ℕ) : ℝ :=
  1 + Real.cos (2 * Real.pi * ((day_of_year : ℝ) - 172) / 365.25) * 0.2

/-- `_clamp_interval(days)` from watering.py:
`max(MIN_INTERVAL_DAYS, min(MAX_INTERVAL_DAYS, days))`, over the reals since
the interval mixes the seasonal (cosine) factor in. -/
noncomputable def _clamp_interval (days : ℝ) : ℝ :=
  max (MIN_INTERVAL_DAYS : ℝ) (min (MAX_INTERVAL_DAYS : ℝ) days)

/-- The clamped interval computed by `next_watering(...)` in watering.py:
`base_interval_days` defaults to 7.0 when `None`, the five modifiers are
multiplied (`temp * hum * out * dli * season`) and clamped. -/
noncomputable def next_watering_interval (base_interval_days : Option ℚ)
    (temperature_c humidity_pct : Option ℚ) (is_outside : Bool)
    (weather_dryness dli : Option ℚ) (day_of_year : ℕ) : ℝ :=
  let base : ℚ := base_interval_days.getD 7
  let combined : ℝ :=
    (_temp_modifier temperature_c : ℝ) * (_humidity_modifier humidity_pct : ℝ) *
      (_outdoor_modifier is_outside weather_dryness : ℝ) * (_dli_modifier dli : ℝ) *
      _seasonal_modifier day_of_year
  _clamp_interval ((base : ℝ) * combined)

/-- `next_watering(...)[0]` from watering.py: the returned datetime is
`last_watered + timedelta(days=interval)`; time is a real number of days. -/
noncomputable def next_watering (last_watered : ℝ) (base_interval_days : Option ℚ)
    (temperature_c humidity_pct : Option ℚ) (is_outside : Bool)
    (weather_dryness dli : Option ℚ) (day_of_year : ℕ) : ℝ :=
  last_watered + next_watering_interval base_interval_days temperature_c
    humidity_pct is_outside weather_dryness dli day_of_year

/-! ### watering.py : `weather_dryness_from_attrs`

The input is an arbitrary attribute mapping.  The keys the function looks at
are modelled structurally: `forecast` (a list of nested attribute mappings;
an absent or non-list or empty `forecast` all skip the branch and are
modelled as `[]`), the three precipitation-probability keys and the two
precipitation-amount keys (each present key is either parseable by `float()`
to a rational or malformed, in the order the source iterates them), and the
`condition` string.  An empty dict returns `None` in the source, exactly like
a dict with only irrelevant keys; both fall through to `None` here. -/

/-- A present dictionary value as seen by `float(attrs[key])`: either it
parses to a number or `float` raises (`ValueError`/`TypeError`). -/
inductive PField where
  | malformedF : PField
  | numF : ℚ → PField
deriving DecidableEq

/-- The `for key in (...)` loops of `weather_dryness_from_attrs`: return on
the first present key whose value parses, skipping ones that raise. -/
def firstNum : List PField → Option ℚ
  | [] => none
  | .malformedF :: rest => firstNum rest
  | .numF q :: _ => some q

/-- Attribute mapping shape relevant to `weather_dryness_from_attrs`. -/
inductive WAttrs where
  | node : List WAttrs → List PField → List PField → Option String → WAttrs

/-- `s.lower()` on the condition string (ASCII, as the compared keywords). -/
def pyLower (s : String) : String := s.map Char.toLower

/-- The precipitation-probability branch: `prob = float(...)`;
`prob = max(0, min(100, prob))`; `return max(0, min(1, 1 - prob/100))`. -/
def probDryness (fields : List PField) : Option ℚ :=
  (firstNum fields).map fun p => max 0 (min 1 (1 - max 0 (min 100 p) / 100))

/-- The precipitation-amount branch:
`return max(0, min(1, 1 - min(50, amount)/50))`. -/
def amountDryness (fields : List PField) : Option ℚ :=
  (firstNum fields).map fun a => max 0 (min 1 (1 - min 50 a / 50))

/-- The condition-keyword heuristic (`if condition:` skips empty strings). -/
def conditionDryness : Option String → Option ℚ
  | none => none
  | some c =>
      if c = "" then none
      else
        let l := pyLower c
        if l = "clear" ∨ l = "sunny" ∨ l = "partlycloudy" ∨ l = "mostly_sunny" then
          some 0.9
        else if l = "cloudy" ∨ l = "partly_cloudy" ∨ l = "mostly_cloudy" then
          some 0.6
        else if l = "rain" ∨ l = "rainy" ∨ l = "snow" ∨ l = "sleet" ∨
            l = "thunderstorm" then
          some 0.1
        else none

/-- The non-forecast tail of `weather_dryness_from_attrs`: probability keys,
then amount keys, then the condition heuristic, then `None`. -/
def weatherDrynessFallback (probs amounts : List PField) (cond : Option String) :
    Option ℚ :=
  match probDryness probs with
  | some d => some d
  | none =>
      match amountDryness amounts with
      | some d => some d
      | none => conditionDryness cond

/-- `weather_dryness_from_attrs(attrs)` from watering.py.  The forecast
branch blends the recursive dryness of the first two forecast entries
(`forecast[:2]`), falling through to the other branches when no entry
yields a value (`count == 0`). -/
def weather_dryness_from_attrs : WAttrs → Option ℚ
  | .node [] probs amounts cond => weatherDrynessFallback probs amounts cond
  | .node [e] probs amounts cond =>
      match weather_dryness_from_attrs e with
      | some v => some v
      | none => weatherDrynessFallback probs amounts cond
  | .node (e₁ :: e₂ :: _) probs amounts cond =>
      match weather_dryness_from_attrs e₁, weather_dryness_from_attrs e₂ with
      | some v₁, some v₂ => some ((v₁ + v₂) / 2)
      | some v₁, none => some v₁
      | none, some v₂ => some v₂
      | none, none => weatherDrynessFallback probs amounts cond

/-! ## __init__.py : `PlantDevice.update`, health evaluation

A sensor state, as obtained by
`getattr(self._hass.states.get(entity_id), "state", None)`, is either absent
(`None`, covering both a missing state object and a `None` state), the
literal strings `"unknown"` / `"unavailable"`, a string `float()` parses to a
number, or any other string (on which `float()` raises `ValueError`). -/

/-- A raw sensor state value. -/
inductive SVal where
  | absent : SVal
  | unknownV : SVal
  | unavailableV : SVal
  | num : ℚ → SVal
  | malformed : SVal
deriving DecidableEq

/-- The guard `x is not None and x != STATE_UNKNOWN and x != STATE_UNAVAILABLE`. -/
def isKnownState : SVal → Bool
  | .num _ => true
  | .malformed => true
  | _ => false

/-- `float(x)` on a state value that passed the guard: parses a numeric
string, raises `ValueError` (modelled as `Except.error`) on any other. -/
def pyFloat : SVal → Except Unit ℚ
  | .num q => .ok q
  | _ => .error ()

/-- Tri-state per-dimension status assigned by the health pass. -/
inductive Status where
  | ok : Status
  | low : Status
  | high : Status
deriving DecidableEq

/-- What one dimension's block of `PlantDevice.update` did to its status
attribute during the pass: left it untouched, or assigned a status. -/
inductive DimOutcome where
  | skipped : DimOutcome
  | set : Status → DimOutcome
deriving DecidableEq

/-- The `dli` entity as seen by the DLI block: whether
`native_value != unknown/unavailable and state is not None`, and
`float(extra_state_attributes["last_period"])`. -/
structure DliEntity where
  stateKnown : Bool
  lastPeriod : ℚ
deriving DecidableEq

/-- `x and float(value) < float(x.state)` (as in
`if self.min_temperature and float(temperature) < ...`): a falsy `x`
short-circuits to `False` *without* calling `float(value)`; with `x` present
the `float` conversion runs and may raise. -/
def guardedBelow (v : SVal) : Option ℚ → Except Unit Bool
  | none => .ok false
  | some mn => do
      let t ← pyFloat v
      pure (decide (t < mn))

/-- `x and float(value) > float(x.state)`, short-circuiting likewise. -/
def guardedAbove (v : SVal) : Option ℚ → Except Unit Bool
  | none => .ok false
  | some mx => do
      let t ← pyFloat v
      pure (decide (mx < t))

/-- Inputs to one health-evaluation pass of `PlantDevice.update`.
`Option SVal` sensors are `none` when the sensor entity is not configured
(`self.sensor_x is None`); room fallbacks are `none` when the corresponding
config option is falsy.  Threshold entities whose presence the source does
not test are modelled by their numeric state directly. -/
structure HealthInput where
  moisture : Option SVal
  minMoisture : ℚ
  maxMoisture : ℚ
  moistureTrigger : Bool
  conductivity : Option SVal
  minConductivity : ℚ
  maxConductivity : ℚ
  conductivityTrigger : Bool
  tempSensor : Option SVal
  roomTempSensor : Option SVal
  minTemperature : Option ℚ
  maxTemperature : Option ℚ
  temperatureTrigger : Bool
  humSensor : Option SVal
  roomHumSensor : Option SVal
  minHumidity : Option ℚ
  maxHumidity : Option ℚ
  humidityTrigger : Bool
  illuminance : Option SVal
  maxIlluminance : ℚ
  illuminanceTrigger : Bool
  dli : Option DliEntity
  minDli : ℚ
  maxDli : ℚ
  dliTrigger : Bool

/-- The moisture block of `PlantDevice.update` (lines 997-1016). -/
def moistureBlock (inp : HealthInput) : Except Unit DimOutcome :=
  match inp.moisture with
  | none => .ok .skipped
  | some v =>
      if isKnownState v then do
        let m ← pyFloat v
        if m < inp.minMoisture then pure (.set .low)
        else if inp.maxMoisture < m then pure (.set .high)
        else pure (.set .ok)
      else .ok .skipped

/-- The conductivity block (lines 1018-1037). -/
def conductivityBlock (inp : HealthInput) : Except Unit DimOutcome :=
  match inp.conductivity with
  | none => .ok .skipped
  | some v =>
      if isKnownState v then do
        let c ← pyFloat v
        if c < inp.minConductivity then pure (.set .low)
        else if inp.maxConductivity < c then pure (.set .high)
        else pure (.set .ok)
      else .ok .skipped

/-- The `temperature` local variable after the sensor/room-sensor fallback
(lines 1039-1056): `none` when neither source is configured. -/
def temperatureValue (inp : HealthInput) : Option SVal :=
  if inp.tempSensor.isSome || inp.roomTempSensor.isSome then
    let t₀ : SVal := match inp.tempSensor with
      | some v => v
      | none => SVal.absent
    if ¬ isKnownState t₀ then
      match inp.roomTempSensor with
      | some r => some r
      | none => some t₀
    else some t₀
  else none

/-- The temperature block (lines 1039-1077): the threshold entities'
truthiness is tested *before* the guarded `float(temperature)` conversion,
so with both thresholds absent the `else` branch assigns `ok` even for a
reading `float` cannot parse. -/
def temperatureBlock (inp : HealthInput) : Except Unit DimOutcome :=
  match temperatureValue inp with
  | none => .ok .skipped
  | some v =>
      if isKnownState v then do
        if (← guardedBelow v inp.minTemperature) then pure (.set .low)
        else if (← guardedAbove v inp.maxTemperature) then pure (.set .high)
        else pure (.set .ok)
      else .ok .skipped

/-- The `humidity` local variable after the fallback (lines 1079-1092). -/
def humidityValue (inp : HealthInput) : Option SVal :=
  if inp.humSensor.isSome || inp.roomHumSensor.isSome then
    let h₀ : SVal := match inp.humSensor with
      | some v => v
      | none => SVal.absent
    if ¬ isKnownState h₀ then
      match inp.roomHumSensor with
      | some r => some r
      | none => some h₀
    else some h₀
  else none

/-- The humidity block (lines 1079-1113), with the same short-circuiting
threshold guards as the temperature block. -/
def humidityBlock (inp : HealthInput) : Except Unit DimOutcome :=
  match humidityValue inp with
  | none => .ok .skipped
  | some v =>
      if isKnownState v then do
        if (← guardedBelow v inp.minHumidity) then pure (.set .low)
        else if (← guardedAbove v inp.maxHumidity) then pure (.set .high)
        else pure (.set .ok)
      else .ok .skipped

/-- The illuminance block (lines 1117-1132): max-only comparison. -/
def illuminanceBlock (inp : HealthInput) : Except Unit DimOutcome :=
  match inp.illuminance with
  | none => .ok .skipped
  | some v =>
      if isKnownState v then do
        let i ← pyFloat v
        if inp.maxIlluminance < i then pure (.set .high)
        else pure (.set .ok)
      else .ok .skipped

/-- The DLI block (lines 1136-1156): evaluated against the previous
period's accumulated total `last_period`; note the `else` branch assigns
`ok` even when `last_period <= 0`. -/
def dliBlock (inp : HealthInput) : DimOutcome :=
  match inp.dli with
  | none => .skipped
  | some d =>
      if d.stateKnown then
        .set (if 0 < d.lastPeriod ∧ d.lastPeriod < inp.minDli then .low
          else if 0 < d.lastPeriod ∧ inp.maxDli < d.lastPeriod then .high
          else .ok)
      else .skipped

/-- The six per-dimension outcomes of one pass, in source order. -/
structure Outcomes where
  moisture : DimOutcome
  conductivity : DimOutcome
  temperature : DimOutcome
  humidity : DimOutcome
  illuminance : DimOutcome
  dli : DimOutcome
deriving DecidableEq

/-- Run the six blocks in source order; the first raise aborts the pass. -/
def evalBlocks (inp : HealthInput) : Except Unit Outcomes := do
  let m ← moistureBlock inp
  let c ← conductivityBlock inp
  let t ← temperatureBlock inp
  let h ← humidityBlock inp
  let i ← illuminanceBlock inp
  pure ⟨m, c, t, h, i, dliBlock inp⟩

/-- Aggregate health state (`STATE_OK` / `STATE_PROBLEM` / `STATE_UNKNOWN`). -/
inductive HealthState where
  | ok : HealthState
  | problem : HealthState
  | unknown : HealthState
deriving DecidableEq

/-- `if self.x_trigger: new_state = STATE_PROBLEM`, reached exactly when the
block assigned `low` or `high`. -/
def contributesToProblem (o : DimOutcome) (trigger : Bool) : Bool :=
  match o with
  | .set .low => trigger
  | .set .high => trigger
  | _ => false

/-- `known_state = True` is executed exactly when the block assigns a status. -/
def outcomeKnown : DimOutcome → Bool
  | .skipped => false
  | .set _ => true

/-- One step of the running `(new_state, known_state)` pair. -/
def aggregateStep (acc : HealthState × Bool) (p : DimOutcome × Bool) :
    HealthState × Bool :=
  (if contributesToProblem p.1 p.2 then .problem else acc.1,
    acc.2 || outcomeKnown p.1)

/-- `new_state = STATE_OK; known_state = False`, updated per block in source
order, then `if not known_state: new_state = STATE_UNKNOWN` (line 1259). -/
def aggregate (l : List (DimOutcome × Bool)) : HealthState :=
  let r := l.foldl aggregateStep (HealthState.ok, false)
  if r.2 then r.1 else .unknown

/-- The six `(outcome, trigger)` pairs of a pass, in source order. -/
def outcomeTriggerPairs (inp : HealthInput) (o : Outcomes) :
    List (DimOutcome × Bool) :=
  [(o.moisture, inp.moistureTrigger), (o.conductivity, inp.conductivityTrigger),
    (o.temperature, inp.temperatureTrigger), (o.humidity, inp.humidityTrigger),
    (o.illuminance, inp.illuminanceTrigger), (o.dli, inp.dliTrigger)]

/-- The health-evaluation part of `PlantDevice.update` (lines 989-1156 and
1259-1262): the per-dimension outcomes plus the final `self._attr_state`. -/
def updateHealth (inp : HealthInput) : Except Unit (Outcomes × HealthState) :=
  (evalBlocks inp).map fun o => (o, aggregate (outcomeTriggerPairs inp o))

/-! ## __init__.py : the "Calculate Next Watering" section (lines 1158-1255) -/

/-- One entry of the weather entity's `forecast` attribute as used here:
`f.get("condition")` and `f.get("precipitation", 0)`. -/
structure FEntry where
  condition : Option String
  precipitation : ℚ

/-- `rainy = any(f.get("condition") in ("rainy","pouring","hail","snowy")
or f.get("precipitation", 0) > 2 for f in forecast[:2])`. -/
def rainyForecast (fs : List FEntry) : Bool :=
  (fs.take 2).any fun f =>
    (match f.condition with
      | some c => decide (c = "rainy" ∨ c = "pouring" ∨ c = "hail" ∨ c = "snowy")
      | none => false) || decide (2 < f.precipitation)

/-- Python `int(q)`: truncation toward zero. -/
def pyInt (q : ℚ) : ℤ := if 0 ≤ q then ⌊q⌋ else ⌈q⌉

/-- `try: temp = float(temperature); if temp != 22: adj *= 1 + (temp-22)*0.05`
with `ValueError/TypeError/NameError` swallowed (factor 1). -/
def tempAdjFactor : SVal → ℚ
  | .num q => if q ≠ 22 then 1 + (q - 22) * 0.05 else 1
  | _ => 1

/-- `try: hum = float(humidity); if hum != 50: adj *= 1 - (hum-50)*0.004`. -/
def humAdjFactor : SVal → ℚ
  | .num q => if q ≠ 50 then 1 - (q - 50) * 0.004 else 1
  | _ => 1

/-- Inputs to the next-watering section.  `temperature` and `humidity` are
the local variables left by the health section (raw state values; `absent`
when never read).  `lastWatered` is the parsed `self.last_watered` (a falsy
or unparsable stored string skips the override block either way, so both are
`none`).  Times are in days. -/
structure WateringInput where
  wateringDays : Option ℚ
  moisture : Option SVal
  minMoisture : ℚ
  maxMoisture : ℚ
  temperature : SVal
  humidity : SVal
  forecast : Option (List FEntry)
  lastWatered : Option ℚ
  now : ℚ

/-- `base_days = self.watering_days or 7` (Python `or`: `None` and `0` are
falsy). -/
def wateringBase (inp : WateringInput) : ℚ :=
  match inp.wateringDays with
  | none => 7
  | some d => if d = 0 then 7 else d

/-- The "Calculate Next Watering" section of `PlantDevice.update`: returns
the final `days` value (an exception from `float(moisture)` aborts). -/
def wateringDaysCalc (inp : WateringInput) : Except Unit ℚ := do
  let base := wateringBase inp
  let days₀ : ℚ ←
    match inp.moisture with
    | none => pure (0 : ℚ)
    | some v =>
        if isKnownState v then do
          let m ← pyFloat v
          let dailyLoss := (inp.maxMoisture - inp.minMoisture) / base
          let dailyLoss := if dailyLoss ≤ 0 then 5 else dailyLoss
          let rainy : Bool :=
            match inp.forecast with
            | some (f₀ :: rest) => rainyForecast (f₀ :: rest)
            | _ => false
          let adj := tempAdjFactor inp.temperature * humAdjFactor inp.humidity *
            (if rainy then 0.5 else 1)
          let adj := max 0.1 adj
          pure ((pyInt ((m - inp.minMoisture) / (dailyLoss * adj)) : ℚ))
        else pure (0 : ℚ)
  match inp.lastWatered with
  | none => pure days₀
  | some lw =>
      if inp.now - lw < 0.5 then
        if days₀ < base then pure base else pure days₀
      else
        match inp.moisture with
        | none => pure (max 0 (base - ((⌊inp.now - lw⌋ : ℤ) : ℚ)))
        | some _ => pure days₀

/-! ## __init__.py : notification gate and mutators (lines 1289-1359)

Times are rational hours.  A stored ISO-timestamp attribute is `noneT`
(Python `None` or empty, falsy), `validT t` (parses), or `malformedT`
(`datetime.fromisoformat` raises `ValueError`, which the gate swallows). -/

/-- A stored timestamp attribute. -/
inductive TStamp where
  | noneT : TStamp
  | validT : ℚ → TStamp
  | malformedT : TStamp
deriving DecidableEq

/-- The plant device's watering bookkeeping fields. -/
structure PlantState where
  last_watered : TStamp
  snooze_until : TStamp
  last_notified : TStamp
deriving DecidableEq

/-- `if self.snooze_until: ... if now < snooze_dt: return` with the
`ValueError` of a malformed stored value swallowed. -/
def snoozeSuppressed (ts : TStamp) (now : ℚ) : Bool :=
  match ts with
  | .validT t => decide (now < t)
  | _ => false

/-- `if self.last_notified: ... if now < last_dt + timedelta(hours=4): return`. -/
def cooldownSuppressed (ts : TStamp) (now : ℚ) : Bool :=
  match ts with
  | .validT t => decide (now < t + 4)
  | _ => false

/-- `_check_and_notify` (lines 1304-1326) together with the scheduled
`_async_send_notification` (lines 1328-1359), under the run-to-completion
model of the spec: the send task finishes before the next evaluation.
Returns the new state and the send time if a notification was sent.  When
the notify service does not exist the task returns before sending and
before setting `last_notified`. -/
def _check_and_notify (s : PlantState) (now : ℚ)
    (moistureLow moistureTrigger serviceExists : Bool) : PlantState × Option ℚ :=
  if !(moistureLow && moistureTrigger) then (s, none)
  else if snoozeSuppressed s.snooze_until now then (s, none)
  else if cooldownSuppressed s.last_notified now then (s, none)
  else if serviceExists then ({ s with last_notified := .validT now }, some now)
  else (s, none)

/-- `async_watered` (lines 1289-1295), state effect; the `self.update()` it
triggers is a separate evaluation event. -/
def async_watered (s : PlantState) (now : ℚ) : PlantState :=
  { s with last_watered := .validT now, snooze_until := .noneT }

/-- `async_snooze` (lines 1297-1302): `snooze_until = now + 1 hour` (the
source takes no hours argument; the snooze length is fixed at one hour). -/
def async_snooze (s : PlantState) (now : ℚ) : PlantState :=
  { s with snooze_until := .validT (now + 1) }

/-- An event hitting the plant device's gate: an evaluation pass (with the
moisture status/trigger and service availability it observes), a watered
action, or a snooze action. -/
inductive PEvent where
  | evalE : ℚ → Bool → Bool → Bool → PEvent
  | wateredE : ℚ → PEvent
  | snoozeE : ℚ → PEvent

/-- One event against the plant device's state. -/
def pStep (s : PlantState) : PEvent → PlantState × Option ℚ
  | .evalE now low trig svc => _check_and_notify s now low trig svc
  | .wateredE now => (async_watered s now, none)
  | .snoozeE now => (async_snooze s now, none)

/-- Run a machine over a list of events collecting notification times. -/
def runFires {σ ε : Type} (f : σ → ε → σ × Option ℚ) : σ → List ε → List ℚ
  | _, [] => []
  | s, e :: es =>
      match f s e with
      | (s', none) => runFires f s' es
      | (s', some t) => t :: runFires f s' es

/-! ## sensor.py : `PlantWateringSensor` (lines 682-890).  Times in hours. -/

/-- Inputs read by `_compute_interval_hours`: each `Option` is `none` when
the corresponding `try` block raised (missing entity / unparsable state). -/
structure IntervalInputs where
  moistureData : Option (ℚ × ℚ × ℚ)
  tempData : Option (ℚ × ℚ × ℚ)
  humData : Option ℚ
  outside : Bool
  rainState : Bool

/-- `_compute_interval_hours` (lines 829-890). -/
def _compute_interval_hours (i : IntervalInputs) : ℚ :=
  match i.moistureData with
  | none => 72
  | some (m, mn, mx) =>
      let ratio := if mx ≤ mn then 0.5 else (m - mn) / (mx - mn)
      let ratio := max 0 (min 1 ratio)
      let base := 24 + ratio * (168 - 24)
      let tempFactor := match i.tempData with
        | none => 1
        | some (t, mnt, mxt) => max 0.6 (min 1.4 (1 - (t - (mnt + mxt) / 2) / 40))
      let humFactor := match i.humData with
        | none => 1
        | some hm => max 0.7 (min 1.3 (1 - (hm - 50) / 200))
      let weatherMultiplier := if i.outside && i.rainState then 1.5 else 1
      max 1 (base * tempFactor * humFactor * weatherMultiplier)

/-- The watering sensor's persistent fields plus the attributes its update
publishes (`round(_, 2)` on the displayed value is presentation only and
not modelled). -/
structure SensorState where
  last_watered : Option ℚ
  last_notified : Option ℚ
  hours_until : Option ℚ
  next_watering_attr : Option ℚ
deriving DecidableEq

/-- `mark_watered(when)` (lines 711-714): `when or datetime.utcnow()`. -/
def mark_watered (s : SensorState) (now : ℚ) (wh : Option ℚ) : SensorState :=
  { s with last_watered := some (wh.getD now) }

/-- `snooze(hours)` (lines 716-728): rewinds `last_watered` so the next
watering lands `hours` from now (`_compute_interval_hours` never raises, so
the `except` fallback is dead code). -/
def sensor_snooze (s : SensorState) (now hours : ℚ) (i : IntervalInputs) :
    SensorState :=
  { s with last_watered := some (now - (_compute_interval_hours i - hours)) }

/-- `async_update` (lines 730-823): recompute interval, next watering and
hours-until, then the interval-based notification gate with its 24-hour
cooldown; `last_notified` is only set when a notification is sent. -/
def sensor_async_update (s : SensorState) (now : ℚ) (i : IntervalInputs) :
    SensorState × Option ℚ :=
  let interval := _compute_interval_hours i
  let nextW : ℚ := match s.last_watered with
    | none => now
    | some lw => lw + interval
  let hu : ℚ := nextW - now
  let hu : ℚ := if hu < 0 then 0 else hu
  let dueNotify : Bool := decide (hu ≤ 0) &&
    (match s.last_notified with
      | none => true
      | some ln => decide (24 < now - ln))
  if dueNotify then
    ({ s with
        hours_until := some hu
        next_watering_attr := some nextW
        last_notified := some now }, some now)
  else
    ({ s with
        hours_until := some hu
        next_watering_attr := some nextW }, none)

/-- An event hitting the watering sensor. -/
inductive WEvent where
  | updateE : ℚ → IntervalInputs → WEvent
  | markWateredE : ℚ → Option ℚ → WEvent
  | snoozeSE : ℚ → ℚ → IntervalInputs → WEvent

/-- One event against the watering sensor's state. -/
def wStep (s : SensorState) : WEvent → SensorState × Option ℚ
  | .updateE now i => sensor_async_update s now i
  | .markWateredE now wh => (mark_watered s now wh, none)
  | .snoozeSE now hours i => (sensor_snooze s now hours i, none)

/-! ### Concrete example inputs used in the theorems below -/

/-- A baseline health input: no sensor configured, all triggers enabled. -/
def emptyHealthInput : HealthInput where
  moisture := none
  minMoisture := 20
  maxMoisture := 60
  moistureTrigger := true
  conductivity := none
  minConductivity := 500
  maxConductivity := 3000
  conductivityTrigger := true
  tempSensor := none
  roomTempSensor := none
  minTemperature := some 10
  maxTemperature := some 40
  temperatureTrigger := true
  humSensor := none
  roomHumSensor := none
  minHumidity := some 20
  maxHumidity := some 60
  humidityTrigger := true
  illuminance := none
  maxIlluminance := 100000
  illuminanceTrigger := true
  dli := none
  minDli := 5
  maxDli := 30
  dliTrigger := true

/-- A pass whose only configured entity is the DLI meter, with a known state
and `last_period = 0`, thresholds 5/30. -/
def dliZeroInput : HealthInput := { emptyHealthInput with dli := some ⟨true, 0⟩ }

/-- A pass whose only configured sensor is moisture, reading 15 against
thresholds {min 20, max 60} with the trigger enabled. -/
def moistureLowInput : HealthInput :=
  { emptyHealthInput with moisture := some (SVal.num 15) }


/-- The watering section input produced by `async_watered` followed by
`update()`: `last_watered = now`, neutral temperature/humidity (never read),
no weather entity, moisture 90 against thresholds {20, 60}, base 7 days. -/
def overshootWateringInput : WateringInput where
  wateringDays := some 7
  moisture := some (SVal.num 90)
  minMoisture := 20
  maxMoisture := 60
  temperature := .absent
  humidity := .absent
  forecast := none
  lastWatered := some 0
  now := 0

/-- The same scenario with a moisture reading inside the thresholds. -/
def neutralWateringInput : WateringInput :=
  { overshootWateringInput with moisture := some (SVal.num 50) }


/-- The gate-relevant abstraction of the plant device's `last_notified`. -/
def plantLN (s : PlantState) : Option ℚ :=
  match s.last_notified with
  | .validT t => some t
  | _ => none

/-- The gate-relevant abstraction of the watering sensor's `_last_notified`. -/
def sensorLN (s : SensorState) : Option ℚ := s.last_notified

end Plant

/-! ## Theorems for the modifier library -/

/-- **C6**: for all temperature inputs the temperature modifier is
monotonically non-increasing, equals exactly 1.0 at 20 °C, and always lies
within [0.5, 2.0]. -/
theorem C6_temp_modifier_mono_neutral_bounded :
    (∀ t₁ t₂ : ℚ, t₁ ≤ t₂ →
        Plant._temp_modifier (some t₂) ≤ Plant._temp_modifier (some t₁)) ∧
    Plant._temp_modifier (some 20) = 1 ∧
    (∀ t : Option ℚ, 0.5 ≤ Plant._temp_modifier t ∧ Plant._temp_modifier t ≤ 2) := by
  refine ⟨?_, by norm_num [Plant._temp_modifier], ?_⟩
  · intro t₁ t₂ h
    simp only [Plant._temp_modifier]
    exact max_le_max le_rfl (min_le_min le_rfl (by linarith))
  · intro t
    cases t with
    | none => norm_num [Plant._temp_modifier]
    | some t =>
        constructor
        · exact le_max_left _ _
        · exact max_le (by norm_num) (le_trans (min_le_left _ _) (by norm_num))

/-- Witness for C6: instantiates the monotonicity component at 10 ≤ 25. -/
theorem C6_witness :
    Plant._temp_modifier (some 25) ≤ Plant._temp_modifier (some 10) :=
  C6_temp_modifier_mono_neutral_bounded.1 10 25 (by norm_num)

/-- **C2** (evaluation at the failing input): the seasonal modifier at
day-of-year 172 equals 1.2, not the 0.8 claimed by the spec and by the
function's own docstring ("Returns 0.8 in Summer (peak)"); the sign of the
cosine term is flipped relative to the documented intent. -/
theorem C2_seasonal_modifier_at_172_is_1_2 :
    Plant._seasonal_modifier 172 = 1.2 ∧ Plant._seasonal_modifier 172 ≠ 0.8 := by
  have h : Plant._seasonal_modifier 172 = 1.2 := by
    unfold Plant._seasonal_modifier
    norm_num
  exact ⟨h, by rw [h]; norm_num⟩

/-- **C4**: for every combination of inputs to `next_watering`, the computed
interval lies in [0.5, 365] days, so the returned timestamp lies between
`last_watered + 0.5` and `last_watered + 365` days. -/
theorem C4_next_watering_interval_clamped
    (last_watered : ℝ) (base : Option ℚ) (t h : Option ℚ) (outside : Bool)
    (wd dli : Option ℚ) (day : ℕ) :
    (0.5 ≤ Plant.next_watering_interval base t h outside wd dli day ∧
      Plant.next_watering_interval base t h outside wd dli day ≤ 365) ∧
    last_watered + 0.5 ≤
        Plant.next_watering last_watered base t h outside wd dli day ∧
    Plant.next_watering last_watered base t h outside wd dli day ≤
        last_watered + 365 := by
  have hlo : (0.5 : ℝ) ≤ Plant.next_watering_interval base t h outside wd dli day := by
    unfold Plant.next_watering_interval Plant._clamp_interval
    calc (0.5 : ℝ) = (Plant.MIN_INTERVAL_DAYS : ℚ) := by norm_num [Plant.MIN_INTERVAL_DAYS]
    _ ≤ _ := le_max_left _ _
  have hhi : Plant.next_watering_interval base t h outside wd dli day ≤ 365 := by
    unfold Plant.next_watering_interval Plant._clamp_interval
    refine max_le ?_ (le_trans (min_le_left _ _) ?_) <;>
      norm_num [Plant.MIN_INTERVAL_DAYS, Plant.MAX_INTERVAL_DAYS]
  refine ⟨⟨hlo, hhi⟩, ?_, ?_⟩ <;> unfold Plant.next_watering <;> linarith

theorem clampUnit_bounds (x : ℚ) : 0 ≤ max 0 (min 1 x) ∧ max 0 (min 1 x) ≤ 1 :=
  ⟨le_max_left _ _, max_le (by norm_num) (min_le_left _ _)⟩

theorem weatherDrynessFallback_bounds (probs amounts : List Plant.PField)
    (cond : Option String) (d : ℚ)
    (h : Plant.weatherDrynessFallback probs amounts cond = some d) :
    0 ≤ d ∧ d ≤ 1 := by
  unfold Plant.weatherDrynessFallback at h
  split at h
  · next heq =>
      obtain ⟨p, _, hp⟩ := Option.map_eq_some'.mp heq
      obtain rfl : d = _ := by injection h with h'; exact h'.symm
      rw [← hp]
      exact clampUnit_bounds _
  · next heq =>
      split at h
      · next heq₂ =>
          obtain ⟨p, _, hp⟩ := Option.map_eq_some'.mp heq₂
          obtain rfl : d = _ := by injection h with h'; exact h'.symm
          rw [← hp]
          exact clampUnit_bounds _
      · next heq₂ =>
          unfold Plant.conditionDryness at h
          rcases cond with _ | c
          · exact absurd h (by simp)
          · simp only at h
            split_ifs at h <;> simp_all <;> norm_num [← h]

/-- **C10**: for every attribute mapping (any nesting of forecast lists,
probability fields, amount fields, condition strings, or none of these),
`weather_dryness_from_attrs` returns `None` or a dryness in [0, 1]; its
recursive forecast-averaging path terminates, as witnessed by the function
being defined by structural recursion on the finite attribute tree. -/
theorem C10_weather_dryness_in_unit_interval :
    ∀ (a : Plant.WAttrs) (d : ℚ),
      Plant.weather_dryness_from_attrs a = some d → 0 ≤ d ∧ d ≤ 1 := by
  intro a
  induction a using Plant.weather_dryness_from_attrs.induct with
  | case1 probs amounts cond =>
      intro d hd
      rw [Plant.weather_dryness_from_attrs] at hd
      exact weatherDrynessFallback_bounds _ _ _ _ hd
  | case2 e probs amounts cond v hv ih =>
      intro d hd
      rw [Plant.weather_dryness_from_attrs, hv] at hd
      obtain rfl : v = d := by injection hd
      exact ih _ hv
  | case3 e probs amounts cond hv ih =>
      intro d hd
      rw [Plant.weather_dryness_from_attrs, hv] at hd
      exact weatherDrynessFallback_bounds _ _ _ _ hd
  | case4 e₁ e₂ tl probs amounts cond v₁ v₂ he₂ he₁ ihe₁ ihe₂ =>
      intro d hd
      rw [Plant.weather_dryness_from_attrs, he₁, he₂] at hd
      obtain rfl : (v₁ + v₂) / 2 = d := by injection hd
      obtain ⟨h₁l, h₁u⟩ := ihe₁ v₁ he₁
      obtain ⟨h₂l, h₂u⟩ := ihe₂ v₂ he₂
      constructor <;> linarith
  | case5 e₁ e₂ tl probs amounts cond v₁ he₂ he₁ ihe₁ ihe₂ =>
      intro d hd
      rw [Plant.weather_dryness_from_attrs, he₁, he₂] at hd
      obtain rfl : v₁ = d := by injection hd
      exact ihe₁ _ he₁
  | case6 e₁ e₂ tl probs amounts cond v₂ he₂ he₁ ihe₁ ihe₂ =>
      intro d hd
      rw [Plant.weather_dryness_from_attrs, he₁, he₂] at hd
      obtain rfl : v₂ = d := by injection hd
      exact ihe₂ _ he₂
  | case7 e₁ e₂ tl probs amounts cond he₂ he₁ ihe₁ ihe₂ =>
      intro d hd
      rw [Plant.weather_dryness_from_attrs, he₁, he₂] at hd
      exact weatherDrynessFallback_bounds _ _ _ _ hd

theorem C10_witness :
    0 ≤ (7/10 : ℚ) ∧ (7/10 : ℚ) ≤ 1 :=
  C10_weather_dryness_in_unit_interval
    (Plant.WAttrs.node [] [Plant.PField.numF 30] [] none) (7/10)
    (by simp [Plant.weather_dryness_from_attrs, Plant.weatherDrynessFallback,
          Plant.probDryness, Plant.firstNum]; norm_num)


section HealthLemmas

open Plant

theorem updateHealth_ok (inp : Plant.HealthInput) (o : Plant.Outcomes)
    (s : Plant.HealthState) (h : Plant.updateHealth inp = .ok (o, s)) :
    Plant.evalBlocks inp = .ok o ∧
      s = Plant.aggregate (Plant.outcomeTriggerPairs inp o) := by
  unfold Plant.updateHealth at h
  cases hev : Plant.evalBlocks inp with
  | error e => rw [hev] at h; simp [Except.map] at h
  | ok o' =>
      rw [hev] at h
      simp only [Except.map, Except.ok.injEq, Prod.mk.injEq] at h
      obtain ⟨rfl, rfl⟩ := h
      exact ⟨rfl, rfl⟩

theorem evalBlocks_ok_dli (inp : Plant.HealthInput) (o : Plant.Outcomes)
    (h : Plant.evalBlocks inp = .ok o) : o.dli = Plant.dliBlock inp := by
  unfold Plant.evalBlocks at h
  simp only [Bind.bind, Except.bind] at h
  cases h1 : Plant.moistureBlock inp with
  | error e => simp [h1] at h
  | ok m =>
  simp only [h1] at h
  cases h2 : Plant.conductivityBlock inp with
  | error e => simp [h2] at h
  | ok c =>
  simp only [h2] at h
  cases h3 : Plant.temperatureBlock inp with
  | error e => simp [h3] at h
  | ok t =>
  simp only [h3] at h
  cases h4 : Plant.humidityBlock inp with
  | error e => simp [h4] at h
  | ok hu =>
  simp only [h4] at h
  cases h5 : Plant.illuminanceBlock inp with
  | error e => simp [h5] at h
  | ok il =>
  simp only [h5] at h
  simp only [pure, Except.pure, Except.ok.injEq] at h
  rw [← h]

theorem foldl_aggregateStep_snd (l : List (Plant.DimOutcome × Bool))
    (s0 : Plant.HealthState) (k0 : Bool) :
    (l.foldl Plant.aggregateStep (s0, k0)).2 =
      (k0 || l.any fun p => Plant.outcomeKnown p.1) := by
  induction l generalizing s0 k0 with
  | nil => simp
  | cons p l ih => simp [Plant.aggregateStep, ih, Bool.or_assoc]

theorem foldl_aggregateStep_fst (l : List (Plant.DimOutcome × Bool))
    (s0 : Plant.HealthState) (k0 : Bool) :
    (l.foldl Plant.aggregateStep (s0, k0)).1 =
      (if l.any (fun p => Plant.contributesToProblem p.1 p.2) then .problem
        else s0) := by
  induction l generalizing s0 k0 with
  | nil => simp
  | cons p l ih =>
      obtain ⟨o, t⟩ := p
      simp only [List.foldl_cons, List.any_cons, Plant.aggregateStep]
      rw [ih]
      by_cases hc : Plant.contributesToProblem o t = true
      · simp [hc]
      · simp only [Bool.not_eq_true] at hc
        simp only [hc, Bool.false_or, Bool.false_eq_true, ite_false]

theorem contributesToProblem_known (o : Plant.DimOutcome) (t : Bool)
    (h : Plant.contributesToProblem o t = true) :
    Plant.outcomeKnown o = true := by
  cases o with
  | skipped => simp [Plant.contributesToProblem] at h
  | set s => rfl

theorem any_contributes_imp_known (l : List (Plant.DimOutcome × Bool))
    (h : (l.any fun p => Plant.contributesToProblem p.1 p.2) = true) :
    (l.any fun p => Plant.outcomeKnown p.1) = true := by
  simp only [List.any_eq_true] at h ⊢
  obtain ⟨p, hp, hc⟩ := h
  exact ⟨p, hp, contributesToProblem_known _ _ hc⟩

theorem aggregate_spec (l : List (Plant.DimOutcome × Bool)) :
    (Plant.aggregate l = .unknown ↔
      (l.any fun p => Plant.outcomeKnown p.1) = false) ∧
    (Plant.aggregate l = .problem ↔
      (l.any fun p => Plant.contributesToProblem p.1 p.2) = true) ∧
    ((l.any fun p => Plant.outcomeKnown p.1) = true →
      (l.any fun p => Plant.contributesToProblem p.1 p.2) = false →
      Plant.aggregate l = .ok) := by
  unfold Plant.aggregate
  simp only [foldl_aggregateStep_fst, foldl_aggregateStep_snd]
  cases hA : (l.any fun p => Plant.outcomeKnown p.1) with
  | false =>
      cases hB : (l.any fun p => Plant.contributesToProblem p.1 p.2) with
      | false => simp
      | true => exact absurd (any_contributes_imp_known l hB) (by simp [hA])
  | true =>
      cases hB : (l.any fun p => Plant.contributesToProblem p.1 p.2) with
      | false => simp
      | true => simp

end HealthLemmas

/-- **C3**: in every successful evaluation pass, the aggregate health state
is `unknown` iff no dimension assigned a known status; it is `problem` iff
some trigger-enabled dimension assigned `low` or `high` (sticky: a later
`ok` never clears it); otherwise it is `ok`. -/
theorem C3_aggregate_health_characterization (inp : Plant.HealthInput)
    (o : Plant.Outcomes) (s : Plant.HealthState)
    (h : Plant.updateHealth inp = .ok (o, s)) :
    (s = .unknown ↔
      ((Plant.outcomeTriggerPairs inp o).any fun p =>
        Plant.outcomeKnown p.1) = false) ∧
    (s = .problem ↔
      ((Plant.outcomeTriggerPairs inp o).any fun p =>
        Plant.contributesToProblem p.1 p.2) = true) ∧
    (((Plant.outcomeTriggerPairs inp o).any fun p =>
        Plant.outcomeKnown p.1) = true →
      ((Plant.outcomeTriggerPairs inp o).any fun p =>
        Plant.contributesToProblem p.1 p.2) = false →
      s = .ok) := by
  obtain ⟨-, rfl⟩ := updateHealth_ok inp o s h
  exact aggregate_spec _

/-- Witness for C3 at a concrete pass: a low moisture reading with the
trigger enabled yields the `problem` aggregate, matching the
characterization. -/
theorem C3_witness :
    Plant.HealthState.problem = .problem ↔
      ((Plant.outcomeTriggerPairs Plant.moistureLowInput
          ⟨.set .low, .skipped, .skipped, .skipped, .skipped, .skipped⟩).any
        fun p => Plant.contributesToProblem p.1 p.2) = true :=
  (C3_aggregate_health_characterization Plant.moistureLowInput
    ⟨.set .low, .skipped, .skipped, .skipped, .skipped, .skipped⟩
    .problem rfl).2.1

/-- **C9** (evaluation at the failing input): a moisture reading that is
present but not parseable as a number makes the health pass raise
(`float(moisture)` raises `ValueError`), aborting `PlantDevice.update`
instead of being recovered like a missing reading. -/
theorem C9_malformed_moisture_raises :
    Plant.updateHealth
      { Plant.emptyHealthInput with moisture := some Plant.SVal.malformed } =
      Except.error () ∧
    Plant.updateHealth
      { Plant.emptyHealthInput with moisture := some Plant.SVal.unknownV } =
      Except.ok (⟨.skipped, .skipped, .skipped, .skipped, .skipped, .skipped⟩,
        Plant.HealthState.unknown) :=
  ⟨rfl, rfl⟩

/-- **C5** (counterexample): with a known DLI meter whose `last_period` is 0
and no other sensor, the pass assigns status `ok` to the DLI dimension and
the aggregate is `ok` — the dimension is *not* skipped as "no data yet" (the
claim would require no known status and an `unknown` aggregate). -/
theorem C5_counterexample :
    Plant.updateHealth Plant.dliZeroInput =
      Except.ok (⟨.skipped, .skipped, .skipped, .skipped, .skipped, .set .ok⟩,
        Plant.HealthState.ok) := rfl

/-- **C5** (amended): the DLI dimension is evaluated against the previous
period's accumulated `last_period`; when the meter's state is known and
`last_period <= 0` the block never reports `low` or `high` (so it never
contributes to `problem`), but it does assign status `ok` (and thereby marks
the pass as known) rather than skipping the dimension. -/
theorem C5_amended_dli_nonpositive_reports_ok (inp : Plant.HealthInput)
    (o : Plant.Outcomes) (s : Plant.HealthState) (d : Plant.DliEntity)
    (h : Plant.updateHealth inp = .ok (o, s)) (hd : inp.dli = some d)
    (hknown : d.stateKnown = true) (hlp : d.lastPeriod ≤ 0) :
    o.dli = .set .ok := by
  obtain ⟨hev, -⟩ := updateHealth_ok inp o s h
  rw [evalBlocks_ok_dli inp o hev]
  unfold Plant.dliBlock
  rw [hd]
  have hnot : ¬ (0 < d.lastPeriod) := not_lt.mpr hlp
  simp [hknown, hnot]

/-- Witness for C5's amended theorem at the concrete zero-`last_period` pass. -/
theorem C5_witness :
    (⟨.skipped, .skipped, .skipped, .skipped, .skipped,
      .set .ok⟩ : Plant.Outcomes).dli = .set .ok :=
  C5_amended_dli_nonpositive_reports_ok Plant.dliZeroInput
    ⟨.skipped, .skipped, .skipped, .skipped, .skipped, .set .ok⟩
    .ok ⟨true, 0⟩ rfl rfl rfl le_rfl

theorem pyInt_le_of_le (q b : ℚ) (hq : q ≤ b) (hb : 0 < b) :
    ((Plant.pyInt q : ℤ) : ℚ) ≤ b := by
  unfold Plant.pyInt
  split_ifs with h0
  · exact le_trans (Int.floor_le q) hq
  · push_neg at h0
    have hc : (⌈q⌉ : ℤ) ≤ 0 := Int.ceil_le.mpr (by exact_mod_cast le_of_lt h0)
    calc ((⌈q⌉ : ℤ) : ℚ) ≤ 0 := by exact_mod_cast hc
    _ ≤ b := le_of_lt hb

/-- **C7** (amended): after `mark_watered()` (`last_watered = now`) an
immediate re-evaluation with neutral temperature/humidity and no rain
forecast yields `days = base_interval_days` when there is no moisture sensor,
and also when the moisture reading does not exceed the max threshold; the
12-hour override only forces `days` *up* to the base, never down. -/
theorem C7_amended_recent_watering (inp : Plant.WateringInput) (lw : ℚ)
    (hlw : inp.lastWatered = some lw) (hrecent : inp.now - lw < 0.5)
    (htemp : Plant.tempAdjFactor inp.temperature = 1)
    (hhum : Plant.humAdjFactor inp.humidity = 1)
    (hforecast : inp.forecast = none)
    (hbase : 0 < Plant.wateringBase inp) :
    (inp.moisture = none →
      Plant.wateringDaysCalc inp = .ok (Plant.wateringBase inp)) ∧
    (∀ m : ℚ, inp.moisture = some (Plant.SVal.num m) →
      inp.minMoisture < inp.maxMoisture → m ≤ inp.maxMoisture →
      Plant.wateringDaysCalc inp = .ok (Plant.wateringBase inp)) := by
  constructor
  · intro hmo
    simp [Plant.wateringDaysCalc, hmo, hlw, hforecast, Bind.bind, Except.bind,
      pure, Except.pure, hrecent, hbase]
  · intro m hmo hminmax hle
    have hdl : (0 : ℚ) < (inp.maxMoisture - inp.minMoisture) / Plant.wateringBase inp :=
      div_pos (by linarith) hbase
    have hdlne : ¬ ((inp.maxMoisture - inp.minMoisture) / Plant.wateringBase inp ≤ 0) :=
      not_le.mpr hdl
    have hadj1 : max (0.1 : ℚ) 1 = 1 := max_eq_right (by norm_num)
    have hq : (m - inp.minMoisture) /
        ((inp.maxMoisture - inp.minMoisture) / Plant.wateringBase inp) ≤
        Plant.wateringBase inp := by
      rw [div_div_eq_mul_div, div_le_iff₀ (by linarith)]
      calc (m - inp.minMoisture) * Plant.wateringBase inp
          ≤ (inp.maxMoisture - inp.minMoisture) * Plant.wateringBase inp :=
            mul_le_mul_of_nonneg_right (by linarith) (le_of_lt hbase)
      _ = Plant.wateringBase inp * (inp.maxMoisture - inp.minMoisture) := by ring
    have hpy := pyInt_le_of_le _ _ hq hbase
    simp [Plant.wateringDaysCalc, hmo, hlw, hforecast, Bind.bind, Except.bind,
      pure, Except.pure, hrecent, Plant.isKnownState, Plant.pyFloat, hdlne,
      htemp, hhum, hadj1]
    intro h2
    exact le_antisymm hpy h2

/-- **C7** (counterexample): `mark_watered()` then an immediate re-evaluation
with every modifier neutral but moisture above the max threshold (90 against
{20, 60}, base 7): the moisture estimate is `int(70 / (40/7)) = 12` days and
the just-watered override does not pull it back down, so `days = 12`, not
the base interval 7 the claim requires. -/
theorem C7_counterexample :
    Plant.wateringDaysCalc Plant.overshootWateringInput = .ok 12 ∧
    Plant.wateringBase Plant.overshootWateringInput = 7 ∧ (12 : ℚ) ≠ 7 := by
  refine ⟨?_, by norm_num [Plant.wateringBase, Plant.overshootWateringInput], by norm_num⟩
  have hfloor : (⌊(49/4 : ℚ)⌋ : ℤ) = 12 := by
    rw [Int.floor_eq_iff]
    norm_num
  simp [Plant.wateringDaysCalc, Plant.overshootWateringInput, Plant.wateringBase,
    Plant.isKnownState, Plant.pyFloat, Plant.pyInt, Plant.tempAdjFactor,
    Plant.humAdjFactor, Bind.bind, Except.bind, pure, Except.pure]
  norm_num [hfloor]

/-- Witness for C7's amended theorem: the in-threshold scenario yields
exactly the base interval. -/
theorem C7_witness :
    Plant.wateringDaysCalc Plant.neutralWateringInput =
      .ok (Plant.wateringBase Plant.neutralWateringInput) :=
  (C7_amended_recent_watering Plant.neutralWateringInput 0 rfl
    (by norm_num [Plant.neutralWateringInput, Plant.overshootWateringInput]) rfl
    rfl rfl (by norm_num [Plant.wateringBase, Plant.neutralWateringInput,
      Plant.overshootWateringInput])).2 50 rfl
    (by norm_num [Plant.neutralWateringInput, Plant.overshootWateringInput])
    (by norm_num [Plant.neutralWateringInput, Plant.overshootWateringInput])

section GateLemmas

/-- Any machine whose steps either leave the last-notified abstraction
unchanged without firing, or fire at a time at least `c` after any previous
last-notified value (recording it), produces fires that are pairwise at
least `c` apart along the run. -/
theorem runFires_chain {σ ε : Type} (f : σ → ε → σ × Option ℚ)
    (ln : σ → Option ℚ) (c : ℚ)
    (hstep : ∀ s e, ((f s e).2 = none ∧ ln (f s e).1 = ln s) ∨
      ∃ t, (f s e).2 = some t ∧ ln (f s e).1 = some t ∧
        ∀ tl, ln s = some tl → tl + c ≤ t) :
    ∀ (evs : List ε) (s : σ),
      List.Chain' (fun a b => a + c ≤ b) (Plant.runFires f s evs) ∧
      ∀ tl, ln s = some tl →
        List.Chain (fun a b => a + c ≤ b) tl (Plant.runFires f s evs) := by
  intro evs
  induction evs with
  | nil =>
      intro s
      exact ⟨trivial, fun tl _ => List.Chain.nil⟩
  | cons e es ih =>
      intro s
      cases hfe : f s e with
      | mk s' o =>
        rcases hstep s e with ⟨hf, hl⟩ | ⟨t, hf, hl, hsupp⟩ <;>
          rw [hfe] at hf hl <;> simp only at hf hl
        · subst hf
          have hrun : Plant.runFires f s (e :: es) = Plant.runFires f s' es := by
            simp [Plant.runFires, hfe]
          rw [hrun]
          refine ⟨(ih s').1, fun tl htl => (ih s').2 tl (hl.symm ▸ htl)⟩
        · subst hf
          have hrun : Plant.runFires f s (e :: es) =
              t :: Plant.runFires f s' es := by
            simp [Plant.runFires, hfe]
          rw [hrun]
          constructor
          · exact (ih s').2 t hl
          · intro tl htl
            exact List.Chain.cons (hsupp tl htl) ((ih s').2 t hl)

end GateLemmas

theorem pStep_lastNotified (s : Plant.PlantState) (e : Plant.PEvent) :
    ((Plant.pStep s e).2 = none ∧
      Plant.plantLN (Plant.pStep s e).1 = Plant.plantLN s) ∨
    ∃ t, (Plant.pStep s e).2 = some t ∧
      Plant.plantLN (Plant.pStep s e).1 = some t ∧
      ∀ tl, Plant.plantLN s = some tl → tl + 4 ≤ t := by
  cases e with
  | wateredE now => left; exact ⟨rfl, rfl⟩
  | snoozeE now => left; exact ⟨rfl, rfl⟩
  | evalE now low trig svc =>
      unfold Plant.pStep Plant._check_and_notify
      dsimp only
      split_ifs with h1 h2 h3 h4
      · left; exact ⟨rfl, rfl⟩
      · left; exact ⟨rfl, rfl⟩
      · left; exact ⟨rfl, rfl⟩
      · right
        refine ⟨now, rfl, rfl, fun tl htl => ?_⟩
        unfold Plant.plantLN at htl
        unfold Plant.cooldownSuppressed at h3
        cases hln : s.last_notified with
        | noneT => rw [hln] at htl; exact absurd htl (by simp)
        | malformedT => rw [hln] at htl; exact absurd htl (by simp)
        | validT t' =>
            rw [hln] at htl h3
            obtain rfl : t' = tl := by injection htl
            simpa using not_lt.mp (by simpa using h3)
      · left; exact ⟨rfl, rfl⟩

theorem wStep_lastNotified (s : Plant.SensorState) (e : Plant.WEvent) :
    ((Plant.wStep s e).2 = none ∧
      Plant.sensorLN (Plant.wStep s e).1 = Plant.sensorLN s) ∨
    ∃ t, (Plant.wStep s e).2 = some t ∧
      Plant.sensorLN (Plant.wStep s e).1 = some t ∧
      ∀ tl, Plant.sensorLN s = some tl → tl + 24 ≤ t := by
  cases e with
  | markWateredE now wh => left; exact ⟨rfl, rfl⟩
  | snoozeSE now hours i => left; exact ⟨rfl, rfl⟩
  | updateE now i =>
      unfold Plant.wStep Plant.sensor_async_update
      dsimp only
      split_ifs with h1 h2 h3 <;>
        first
        | (left; exact ⟨rfl, rfl⟩)
        | (right
           refine ⟨now, rfl, rfl, fun tl htl => ?_⟩
           unfold Plant.sensorLN at htl
           first
           | (rw [htl] at h2
              simp only [Bool.and_eq_true, decide_eq_true_eq] at h2
              linarith [h2.2])
           | (rw [htl] at h3
              simp only [Bool.and_eq_true, decide_eq_true_eq] at h3
              linarith [h3.2]))

/-- **C1**: along any sequence of events (evaluations at arbitrary times and
frequencies, watered/snooze actions), the health-based gate's notification
times are pairwise at least 4 hours apart, and the interval-based watering
sensor's notification times are pairwise at least 24 hours apart: once a
notification is sent at time T, no further one is sent strictly before
T + cooldown. -/
theorem C1_cooldown_between_notifications :
    (∀ (s : Plant.PlantState) (evs : List Plant.PEvent),
        List.Pairwise (fun a b => a + 4 ≤ b) (Plant.runFires Plant.pStep s evs)) ∧
    (∀ (s : Plant.SensorState) (evs : List Plant.WEvent),
        List.Pairwise (fun a b => a + 24 ≤ b)
          (Plant.runFires Plant.wStep s evs)) := by
  constructor
  · intro s evs
    haveI : IsTrans ℚ (fun a b => a + 4 ≤ b) :=
      ⟨fun a b c h1 h2 => by linarith⟩
    exact List.chain'_iff_pairwise.mp
      (runFires_chain Plant.pStep Plant.plantLN 4 pStep_lastNotified evs s).1
  · intro s evs
    haveI : IsTrans ℚ (fun a b => a + 24 ≤ b) :=
      ⟨fun a b c h1 h2 => by linarith⟩
    exact List.chain'_iff_pairwise.mp
      (runFires_chain Plant.wStep Plant.sensorLN 24 wStep_lastNotified evs s).1

/-- **C8**: the plant device's snooze sets `snooze_until = now + 1h` (its
snooze length is fixed at one hour) and leaves `last_watered` untouched; the
watering sensor's `snooze(hours)` instead rewinds `last_watered` so that a
re-evaluation under the same interval inputs publishes
`next_watering = now + hours`. -/
theorem C8_snooze_frame_effects :
    (∀ (s : Plant.PlantState) (now : ℚ),
        (Plant.async_snooze s now).snooze_until = .validT (now + 1) ∧
        (Plant.async_snooze s now).last_watered = s.last_watered ∧
        (Plant.async_snooze s now).last_notified = s.last_notified) ∧
    (∀ (s : Plant.SensorState) (now hours now' : ℚ) (i : Plant.IntervalInputs),
        (Plant.sensor_async_update (Plant.sensor_snooze s now hours i) now'
            i).1.next_watering_attr = some (now + hours)) := by
  constructor
  · intro s now
    exact ⟨rfl, rfl, rfl⟩
  · intro s now hours now' i
    unfold Plant.sensor_async_update Plant.sensor_snooze
    dsimp only
    split_ifs <;> simp <;> ring
